import Mathlib

/-!
Verification of the BuildBetter MCP server's core logic (src/build/index.js):
schema cache, type resolver, field-similarity matcher, query synthesizer and
the mutation guard.  JavaScript values are modelled with `Option` for
null/undefined, `Except` for thrown errors, and `Nat`/`Int` for numbers; every
definition is a direct translation of the corresponding JS function.
-/

namespace BB

/-- JS truthiness for an optional string (`undefined`, `null` and `""` are falsy). -/
def jsTruthy : Option String → Bool
  | none => false
  | some s => s ≠ ""

/-- JS `String.prototype.toLowerCase` (ASCII range, character-wise). -/
def jsToLower (s : String) : String := ⟨s.data.map Char.toLower⟩

/-- The whitespace class JS `String.prototype.trim` strips. -/
def isJsSpace (c : Char) : Bool :=
  c = ' ' ∨ c = '\t' ∨ c = '\n' ∨ c = '\r' ∨ c = '\x0b' ∨ c = '\x0c'

/-- JS `String.prototype.trim`: strip leading and trailing whitespace. -/
def jsTrim (s : String) : String :=
  ⟨((s.data.dropWhile isJsSpace).reverse.dropWhile isJsSpace).reverse⟩

/-- JS `s.startsWith(fix)`. -/
def jsStartsWith (s fix : String) : Bool := fix.data.isPrefixOf s.data

/-- `needle.isPrefixOf hay || ...` scan: model of JS `String.prototype.includes`
(restricted to the character-list level). -/
def containsSub (needle : List Char) : List Char → Bool
  | [] => needle.isEmpty
  | c :: rest => needle.isPrefixOf (c :: rest) || containsSub needle rest

/-- JS `hay.includes(sub)`. -/
def jsIncludes (hay sub : String) : Bool := containsSub sub.data hay.data

/-! ## Type resolver (`formatTypeForDisplay`, `filterObjectTypes`) -/

/-- An introspection `__Type` reference: `kind`, optional `name`, optional `ofType`.
Mirrors the JS object shape used by `formatTypeForDisplay`. -/
inductive TypeRef where
  | mk (kind : String) (name : Option String) (ofType : Option TypeRef)

def TypeRef.kind : TypeRef → String
  | .mk k _ _ => k

def TypeRef.name : TypeRef → Option String
  | .mk _ n _ => n

/-- Translation of
`function formatTypeForDisplay(type) { if (!type) return 'Unknown';
 if (type.kind === 'NON_NULL') return format(type.ofType) + '!';
 if (type.kind === 'LIST') return '[' + format(type.ofType) + ']';
 return type.name || 'UnnamedType'; }`
(`type.name || ...` treats the empty string as absent, JS falsiness). -/
def formatTypeForDisplay : Option TypeRef → String
  | none => "Unknown"
  | some (.mk kind name ofType) =>
    if kind = "NON_NULL" then formatTypeForDisplay ofType ++ "!"
    else if kind = "LIST" then "[" ++ formatTypeForDisplay ofType ++ "]"
    else match name with
         | some n => if n = "" then "UnnamedType" else n
         | none => "UnnamedType"

/-- A raw type entry of an introspection result (only the parts
`filterObjectTypes` inspects). -/
structure RawType where
  kind : Option String
  name : Option String
deriving Repr, DecidableEq

/-- `schema.__schema` body: `types` may be null/absent, entries may be null. -/
structure RawSchemaBody where
  types : Option (List (Option RawType))
deriving Repr, DecidableEq

/-- The whole introspection result: `__schema` may be null/absent. -/
structure RawIntrospection where
  introspectionSchema : Option RawSchemaBody
deriving Repr, DecidableEq

/-- Translation of
`function filterObjectTypes(schema) {
   if (!schema || !schema.__schema || !schema.__schema.types) return [];
   return schema.__schema.types.filter(t =>
     !!t && t.kind === 'OBJECT' && !!t.name && !t.name.startsWith('__')); }`. -/
def filterObjectTypes : Option RawIntrospection → List RawType
  | none => []
  | some r =>
    match r.introspectionSchema with
    | none => []
    | some body =>
      match body.types with
      | none => []
      | some ts =>
        ts.filterMap fun entry =>
          match entry with
          | none => none
          | some t =>
            if t.kind = some "OBJECT" ∧ jsTruthy t.name
                ∧ ¬ jsStartsWith (t.name.getD "") "__" then some t else none

/-! ## Enum normalization and limit guardrails -/

/-- Translation of
`function normalizeEnumValue(v) { if (v === undefined || v === null) return '';
 return String(v).replace(/^["']|["']$/g, ''); }`
(string path: strip one leading and one trailing quote character). -/
def normalizeEnumValue (s : String) : String :=
  let l1 : List Char :=
    match s.data with
    | c :: rest => if c = '"' ∨ c = '\'' then rest else c :: rest
    | [] => []
  let l2 : List Char :=
    match l1.getLast? with
    | some c => if c = '"' ∨ c = '\'' then l1.dropLast else l1
    | none => l1
  ⟨l2⟩

/-- The result of JS `parseInt(String(args?.limit ?? dflt), 10)` abstracted:
`none` = the argument was absent, `some none` = present but parses to `NaN`,
`some (some n)` = present and parses to the integer `n`. -/
abbrev LimitArg := Option (Option Int)

/-- Translation of the repeated guardrail pattern
`let limit = parseInt(String(args?.limit ?? dflt), 10);
 if (isNaN(limit) || limit <= 0) limit = dflt;
 limit = Math.min(limit, cap);`. -/
def clampLimit (dflt cap : Int) (arg : LimitArg) : Int :=
  let parsed : Option Int :=
    match arg with
    | none => some dflt
    | some p => p
  let limit : Int :=
    match parsed with
    | none => dflt
    | some l => if l ≤ 0 then dflt else l
  min limit cap

/-- `search-extractions` limit guardrail (default 10, cap 50). -/
def searchExtractionsLimit (arg : LimitArg) : Int := clampLimit 10 50 arg

/-- `top-customer-issues` limit guardrail (default 10, cap 50). -/
def topCustomerIssuesLimit (arg : LimitArg) : Int := clampLimit 10 50 arg

/-- Translation of the `build-query` limit guardrail:
`if (limit !== undefined && Number.isInteger(limit) && limit > 0)
   params.push(`limit: ${Math.min(limit, 100)}`);`
`none` means the parameter is omitted from the generated query. -/
def buildQueryLimitParam (limit : LimitArg) : Option String :=
  match limit with
  | some (some n) => if 0 < n then some ("limit: " ++ toString (min n 100)) else none
  | _ => none

/-- Translation of the `build-query` parameter assembly around an
already-computed optional `where` body (`filterStr`):
`const params = []; if (...) params.push(limit...); if (filterStr) params.push(`where: {...}`);
 if (params.length > 0) queryParams = `(${params.join(', ')})`;`. -/
def buildQueryParams (limit : LimitArg) (filterStr : Option String) : String :=
  let params : List String :=
    (buildQueryLimitParam limit).toList ++
      (match filterStr with
       | some f => if f ≠ "" then ["where: \x7b" ++ f ++ "\x7d"] else []
       | none => [])
  if params.length > 0 then "(" ++ String.intercalate ", " params ++ ")" else ""

/-! ## The `run-query` tool and its mutation guard -/

/-- Outcome of the `run-query` handler (content collapsed to its shape;
`isError` is decided by the constructor). -/
inductive RunQueryResult where
  | missingQuery
  | mutationRejected
  | success (body : String)
  | downstreamError (msg : String)
deriving Repr, DecidableEq

def RunQueryResult.isError : RunQueryResult → Bool
  | .success _ => false
  | _ => true

/-- `const queryText = query.trim().toLowerCase();
 queryText.startsWith('mutation') || queryText.includes('mutation \x7b')` -/
def mutationGuard (query : String) : Bool :=
  let queryText := jsToLower (jsTrim query)
  jsStartsWith queryText "mutation" || jsIncludes queryText "mutation \x7b"

/-- Translation of the `run-query` handler.  The downstream HTTP request is
abstracted as `downstream`; the second component counts how many downstream
calls the handler issued. -/
def runQuery (query : Option String) (downstream : String → Except String String) :
    RunQueryResult × Nat :=
  match query with
  | none => (.missingQuery, 0)
  | some q =>
    if q = "" then (.missingQuery, 0)
    else if mutationGuard q then (.mutationRejected, 0)
    else
      match downstream q with
      | .ok body => (.success body, 1)
      | .error msg => (.downstreamError msg, 1)

/-! ## Schema cache (`getSchemaInfo`) -/

/-- `cachedSchema = \x7b data, fetchedAt \x7d | null`.  The introspection payload is
abstracted as the type parameter `σ`. -/
structure CacheEntry (σ : Type) where
  data : σ
  fetchedAt : Nat
deriving Repr, DecidableEq

def SCHEMA_CACHE_TTL_MS : Nat := 30 * 60 * 1000

/-- Translation of `getSchemaInfo`: check the cache against the TTL, otherwise
fetch (the in-flight introspection request is abstracted as `fetch`); on
success replace the cache, on failure rethrow without touching it.  Returns
(result, new cache state, number of downstream introspection calls). -/
def getSchemaInfo (σ : Type) (now : Nat) (st : Option (CacheEntry σ))
    (fetch : Except String σ) : Except String σ × Option (CacheEntry σ) × Nat :=
  match st with
  | some c =>
    if now - c.fetchedAt < SCHEMA_CACHE_TTL_MS then (.ok c.data, some c, 0)
    else
      match fetch with
      | .ok d => (.ok d, some ⟨d, now⟩, 1)
      | .error e => (.error e, some c, 1)
  | none =>
    match fetch with
    | .ok d => (.ok d, some ⟨d, now⟩, 1)
    | .error e => (.error e, none, 1)

/-! ## Field-similarity matcher (`levenshteinDistance`, `findSimilarFields`) -/

/-- One row-fill step of the Levenshtein dynamic program, mirroring the inner
`for (j = 1; j <= a.length; j++)` loop: `prev` walks the previous matrix row
(`prev.head` is the diagonal entry, the next element the one above), `left`
is the entry just computed in the current row. -/
def levRowGo (bc : Char) : List Char → List Nat → Nat → List Nat
  | [], _, _ => []
  | _ :: _, [], _ => []
  | ac :: arest, pdiag :: prest, left =>
    let pup := prest.headD 0
    let cur := if bc = ac then pdiag
               else min (pdiag + 1) (min (left + 1) (pup + 1))
    cur :: levRowGo bc arest prest cur

/-- The outer `for (i = 1; i <= b.length; i++)` loop: build matrix row `i`
from row `i - 1`; each row starts with `matrix[i][0] = i`. -/
def levRows (al : List Char) : List Char → List Nat → Nat → List Nat
  | [], prev, _ => prev
  | bc :: brest, prev, i => levRows al brest (i :: levRowGo bc al prev i) (i + 1)

/-- Translation of `levenshteinDistance(a, b)`: row 0 is `[0, 1, ..., a.length]`
(`matrix[0][j] = j`), then fill one row per character of `b` and read off
`matrix[b.length][a.length]`. -/
def levenshteinDistance (a b : String) : Nat :=
  (levRows a.data b.data (List.range (a.data.length + 1)) 1).getLastD 0

/-- The comparison key of `findSimilarFields`' sort:
`levenshteinDistance(name.toLowerCase(), fieldName.toLowerCase())`. -/
def lowerDistanceTo (fieldName name : String) : Nat :=
  levenshteinDistance (jsToLower name) (jsToLower fieldName)

/-- Translation of `findSimilarFields`: on a failed type lookup (the `catch`
branch) return `[]`; otherwise keep names at distance `0 < d <= maxDistance`,
sort ascending by distance (JS `Array.prototype.sort` is stable per ES2019,
modelled by the stable `List.insertionSort`) and return the first 3. -/
def findSimilarFields (fieldsResult : Except Unit (List String)) (fieldName : String)
    (maxDistance : Nat := 3) : List String :=
  match fieldsResult with
  | .error _ => []
  | .ok fieldNames =>
    let similar :=
      (fieldNames.filter fun name =>
        let dist := lowerDistanceTo fieldName name
        decide (0 < dist) && decide (dist ≤ maxDistance)).insertionSort
        fun a b => lowerDistanceTo fieldName a ≤ lowerDistanceTo fieldName b
    similar.take 3

/-! ## `search-extractions` where-clause synthesis -/

/-- One entry of `getTypeFields`' result: `\x7b name, type, description \x7d`
(description dropped, never consulted by the synthesizer). -/
structure FieldInfo where
  name : String
  type : TypeRef

/-- The fixed candidate-text-field priority list
`["summary", "exact_quote", "text", "context"]`. -/
def smartFieldCandidates : List String := ["summary", "exact_quote", "text", "context"]

/-- JS `orConditions.replace(/^\x7b|\x7d$/g, '')`: drop one leading `\x7b` and one
trailing `\x7d` if present. -/
def stripOuterBraces (s : String) : String :=
  let l1 : List Char :=
    match s.data with
    | c :: rest => if c = '\x7b' then rest else c :: rest
    | [] => []
  let l2 : List Char :=
    match l1.getLast? with
    | some c => if c = '\x7d' then l1.dropLast else l1
    | none => l1
  ⟨l2⟩

/-- `\x7b FIELD: \x7b_ilike: "%PHRASE%"\x7d \x7d` — one `_or` member. -/
def ilikeCondition (phrase field : String) : String :=
  "\x7b " ++ field ++ ": \x7b_ilike: \"%" ++ phrase ++ "%\"\x7d \x7d"

/-- The `extType` handling: `if (extType) extType = normalizeEnumValue(extType);`
then `if (extType) whereClauses.push(`types: \x7b type: \x7b name: \x7b_eq: ${extType}\x7d \x7d \x7d`)`. -/
def extTypeClause (extType : Option String) : Option String :=
  let normalized : Option String :=
    match extType with
    | some t => if t ≠ "" then some (normalizeEnumValue t) else some t
    | none => none
  match normalized with
  | some t =>
    if t ≠ "" then some ("types: \x7b type: \x7b name: \x7b_eq: " ++ t ++ "\x7d \x7d \x7d")
    else none
  | none => none

/-- `if (personaIds && personaIds.length > 0 && extractionFields.some(f => f.name === 'speaker'))
 whereClauses.push(`speaker: \x7b person: \x7b persona_id: \x7b_in: [ids]\x7d \x7d \x7d`)`. -/
def personaClause (personaIds : Option (List Int)) (extractionFields : List FieldInfo) :
    Option String :=
  match personaIds with
  | some ids =>
    if ids.length > 0 ∧ extractionFields.any (fun f => f.name = "speaker") then
      some ("speaker: \x7b person: \x7b persona_id: \x7b_in: [" ++
        String.intercalate "," (ids.map toString) ++ "]\x7d \x7d \x7d")
    else none
  | none => none

/-- Translation of the `search-extractions` where-clause construction
(the `whereClauses` array; `.error` is the handler's early
"No suitable text field" return). -/
def searchExtractionsWhereClauses (phrase : String) (extType : Option String)
    (personaIds : Option (List Int)) (extractionFields : List FieldInfo) :
    Except String (List String) :=
  let smartSearchableFields := smartFieldCandidates.filter fun fieldName =>
    extractionFields.any fun ef => ef.name = fieldName
  let base : Except String (List String) :=
    if smartSearchableFields.length > 0 then
      let orConditions :=
        String.intercalate ", " (smartSearchableFields.map (ilikeCondition phrase))
      .ok [if smartSearchableFields.length > 1 then "_or: [" ++ orConditions ++ "]"
           else stripOuterBraces orConditions]
    else
      match (extractionFields.find? fun f => f.name = "summary" ∨ f.name = "text").map
          FieldInfo.name with
      | some defaultTextField =>
        .ok [defaultTextField ++ ": \x7b_ilike: \"%" ++ phrase ++ "%\"\x7d"]
      | none => .error "No suitable text field found on extraction for searching."
  match base with
  | .error e => .error e
  | .ok clauses =>
    .ok (clauses ++ (extTypeClause extType).toList ++
      (personaClause personaIds extractionFields).toList)

/-- `const whereCombined = whereClauses.join(', ')`. -/
def searchExtractionsWhere (phrase : String) (extType : Option String)
    (personaIds : Option (List Int)) (extractionFields : List FieldInfo) :
    Except String String :=
  (searchExtractionsWhereClauses phrase extType personaIds extractionFields).map
    (String.intercalate ", ")

/-- The `gql` template of `search-extractions` (the tag is the identity in
`graphql-request`; interpolations `whereCombined`, `limit`, `selectionFields`). -/
def searchExtractionsQuery (whereCombined : String) (limit : Int)
    (selectionFields : List String) : String :=
  "\n      query SearchExtractions \x7b\n        extraction(\n          where: \x7b " ++
    whereCombined ++ " \x7d\n          order_by: \x7b display_ts: desc \x7d\n          limit: " ++
    toString limit ++ "\n        ) \x7b\n          " ++
    String.intercalate "\n          " selectionFields ++ "\n        \x7d\n      \x7d"

/-! ## Auxiliary definitions for the statements -/

/-- A NON_NULL / LIST wrapper layer of a `TypeRef` chain. -/
inductive Wrapper where
  | nonNull
  | listW
deriving Repr, DecidableEq, BEq

/-- Build the `TypeRef` chain that wraps `base` in the given layers,
outermost first. -/
def chainRef : List Wrapper → TypeRef → TypeRef
  | [], base => base
  | .nonNull :: rest, base => .mk "NON_NULL" none (some (chainRef rest base))
  | .listW :: rest, base => .mk "LIST" none (some (chainRef rest base))

/-- The display string the spec prescribes for a wrapper chain around the bare
name `x`: NON_NULL appends a trailing `!`, LIST surrounds with brackets,
recursively in wrapping order. -/
def renderChain : List Wrapper → String → String
  | [], x => x
  | .nonNull :: rest, x => renderChain rest x ++ "!"
  | .listW :: rest, x => "[" ++ renderChain rest x ++ "]"

/-- Occurrences of the character `c` in `s`. -/
def charCount (s : String) (c : Char) : Nat := s.data.count c

/-- The filter C9 claims `filterObjectTypes` implements: kind `OBJECT`,
non-null name, name not starting with `__` (note: no exclusion of the empty
name). -/
def filterObjectTypesClaimed : Option RawIntrospection → List RawType
  | none => []
  | some r =>
    match r.introspectionSchema with
    | none => []
    | some body =>
      match body.types with
      | none => []
      | some ts =>
        ts.filterMap fun entry =>
          match entry with
          | none => none
          | some t =>
            match t.name with
            | some n =>
              if t.kind = some "OBJECT" ∧ ¬ jsStartsWith n "__" then some t else none
            | none => none

/-- The amended filter: kind `OBJECT`, a present **non-empty** name, name not
starting with `__` (the JS truthiness test `!!type.name` also rejects `""`). -/
def filterObjectTypesAmended : Option RawIntrospection → List RawType
  | none => []
  | some r =>
    match r.introspectionSchema with
    | none => []
    | some body =>
      match body.types with
      | none => []
      | some ts =>
        ts.filterMap fun entry =>
          match entry with
          | none => none
          | some t =>
            match t.name with
            | some n =>
              if t.kind = some "OBJECT" ∧ n ≠ "" ∧ ¬ jsStartsWith n "__" then some t
              else none
            | none => none

/-- A malformed-but-structured introspection result: one OBJECT entry whose
name is the empty string. -/
def emptyNameIntrospection : Option RawIntrospection :=
  some ⟨some ⟨some [some ⟨some "OBJECT", some ""⟩]⟩⟩

/-- An `extraction` field list whose every declared type is the scalar
`String` (no ENUM anywhere). -/
def fieldsDeclaredString : List FieldInfo :=
  [⟨"summary", .mk "SCALAR" (some "String") none⟩,
   ⟨"text", .mk "SCALAR" (some "String") none⟩]

/-- The same field names, but every declared type an ENUM. -/
def fieldsDeclaredEnum : List FieldInfo :=
  [⟨"summary", .mk "ENUM" (some "SomeEnum") none⟩,
   ⟨"text", .mk "ENUM" (some "SomeEnum") none⟩]

/-! ## Helper lemmas -/

lemma charCount_append (a b : String) (c : Char) :
    charCount (a ++ b) c = charCount a c + charCount b c := by
  simp [charCount, String.data_append]

lemma formatTypeForDisplay_chainRef (ws : List Wrapper) (kind x : String)
    (inner : Option TypeRef) (h1 : kind ≠ "NON_NULL") (h2 : kind ≠ "LIST") (hx : x ≠ "") :
    formatTypeForDisplay (some (chainRef ws (.mk kind (some x) inner))) = renderChain ws x := by
  induction ws with
  | nil => simp [chainRef, renderChain, formatTypeForDisplay, h1, h2, hx]
  | cons w rest ih => cases w <;> simp [chainRef, renderChain, formatTypeForDisplay, ih]

lemma renderChain_counts (ws : List Wrapper) (x : String) :
    charCount (renderChain ws x) '!' = charCount x '!' + ws.count .nonNull
    ∧ charCount (renderChain ws x) '[' = charCount x '[' + ws.count .listW
    ∧ charCount (renderChain ws x) ']' = charCount x ']' + ws.count .listW := by
  have e1 : charCount "!" '!' = 1 := by decide
  have e2 : charCount "!" '[' = 0 := by decide
  have e3 : charCount "!" ']' = 0 := by decide
  have e4 : charCount "[" '!' = 0 := by decide
  have e5 : charCount "[" '[' = 1 := by decide
  have e6 : charCount "[" ']' = 0 := by decide
  have e7 : charCount "]" '!' = 0 := by decide
  have e8 : charCount "]" '[' = 0 := by decide
  have e9 : charCount "]" ']' = 1 := by decide
  have w1 : (Wrapper.nonNull == Wrapper.nonNull) = true := rfl
  have w2 : (Wrapper.nonNull == Wrapper.listW) = false := rfl
  have w3 : (Wrapper.listW == Wrapper.nonNull) = false := rfl
  have w4 : (Wrapper.listW == Wrapper.listW) = true := rfl
  induction ws with
  | nil => simp [renderChain]
  | cons w rest ih =>
    obtain ⟨i1, i2, i3⟩ := ih
    cases w
    · refine ⟨?_, ?_, ?_⟩
      · show charCount (renderChain rest x ++ "!") '!' = _
        rw [charCount_append, i1, e1, List.count_cons]
        simp only [w1, if_true]
        omega
      · show charCount (renderChain rest x ++ "!") '[' = _
        rw [charCount_append, i2, e2, List.count_cons]
        simp [w2]
      · show charCount (renderChain rest x ++ "!") ']' = _
        rw [charCount_append, i3, e3, List.count_cons]
        simp [w2]
    · refine ⟨?_, ?_, ?_⟩
      · show charCount ("[" ++ renderChain rest x ++ "]") '!' = _
        rw [charCount_append, charCount_append, e4, i1, e7, List.count_cons]
        simp [w3]
      · show charCount ("[" ++ renderChain rest x ++ "]") '[' = _
        rw [charCount_append, charCount_append, e5, i2, e8, List.count_cons]
        simp [w4]
        omega
      · show charCount ("[" ++ renderChain rest x ++ "]") ']' = _
        rw [charCount_append, charCount_append, e6, i3, e9, List.count_cons]
        simp [w4]
        omega

lemma renderChain_contains (ws : List Wrapper) (x : String) :
    ∃ pre post : List Char, (renderChain ws x).data = pre ++ x.data ++ post := by
  induction ws with
  | nil => exact ⟨[], [], by simp [renderChain]⟩
  | cons w rest ih =>
    obtain ⟨p, q, h⟩ := ih
    cases w
    · exact ⟨p, q ++ "!".data, by simp [renderChain, String.data_append, h]⟩
    · exact ⟨"[".data ++ p, q ++ "]".data, by simp [renderChain, String.data_append, h]⟩

lemma any_name_congr (l l' : List FieldInfo)
    (h : l.map FieldInfo.name = l'.map FieldInfo.name) (p : String → Bool) :
    (l.any fun f => p f.name) = (l'.any fun f => p f.name) := by
  rw [Bool.eq_iff_iff, List.any_eq_true, List.any_eq_true]
  constructor
  · rintro ⟨x, hx, hp⟩
    have hm : x.name ∈ l'.map FieldInfo.name := h ▸ List.mem_map_of_mem _ hx
    obtain ⟨y, hy, hyn⟩ := List.mem_map.mp hm
    exact ⟨y, hy, by rw [hyn]; exact hp⟩
  · rintro ⟨x, hx, hp⟩
    have hm : x.name ∈ l.map FieldInfo.name := h ▸ List.mem_map_of_mem _ hx
    obtain ⟨y, hy, hyn⟩ := List.mem_map.mp hm
    exact ⟨y, hy, by rw [hyn]; exact hp⟩

lemma find?_name_congr (l : List FieldInfo) (p : String → Bool) :
    ∀ l' : List FieldInfo, l.map FieldInfo.name = l'.map FieldInfo.name →
    (l.find? fun f => p f.name).map FieldInfo.name =
      (l'.find? fun f => p f.name).map FieldInfo.name := by
  induction l with
  | nil =>
    intro l' h
    cases l' with
    | nil => rfl
    | cons b t => simp at h
  | cons a t ih =>
    intro l' h
    cases l' with
    | nil => simp at h
    | cons b t' =>
      simp only [List.map_cons, List.cons.injEq] at h
      obtain ⟨hn, ht⟩ := h
      by_cases hp : p b.name
      · have hpa : p a.name = true := by rw [hn]; exact hp
        simp [List.find?_cons, hpa, hp, hn]
      · have hpa : p a.name = false := by rw [hn]; simpa using hp
        simpa [List.find?_cons, hpa, hp] using ih t' ht

/-! ## Claim theorems -/

/-- C5: for every TypeRef chain of NON_NULL and LIST wrappers around a concrete
named type `x`, `formatTypeForDisplay` renders the spec's recursion (`!` appended
per NON_NULL, brackets per LIST, in wrapping order), whose output counts exactly
one `!` per NON_NULL layer, one `[`/`]` pair per LIST layer, and contains `x`;
a missing ref or missing name yields a placeholder, and the function is total. -/
theorem C5_formatTypeForDisplay_chain (ws : List Wrapper) (kind x : String)
    (inner : Option TypeRef) (h1 : kind ≠ "NON_NULL") (h2 : kind ≠ "LIST") (hx : x ≠ "")
    (hb : '!' ∉ x.data) (hlb : '[' ∉ x.data) (hrb : ']' ∉ x.data) :
    formatTypeForDisplay (some (chainRef ws (.mk kind (some x) inner))) = renderChain ws x
    ∧ charCount (renderChain ws x) '!' = ws.count .nonNull
    ∧ charCount (renderChain ws x) '[' = ws.count .listW
    ∧ charCount (renderChain ws x) ']' = ws.count .listW
    ∧ (∃ pre post : List Char, (renderChain ws x).data = pre ++ x.data ++ post)
    ∧ formatTypeForDisplay none = "Unknown"
    ∧ (∀ (k : String) (o : Option TypeRef), k ≠ "NON_NULL" → k ≠ "LIST" →
        formatTypeForDisplay (some (.mk k none o)) = "UnnamedType") := by
  obtain ⟨cb, cl, cr⟩ := renderChain_counts ws x
  have hb0 : charCount x '!' = 0 := List.count_eq_zero.mpr hb
  have hl0 : charCount x '[' = 0 := List.count_eq_zero.mpr hlb
  have hr0 : charCount x ']' = 0 := List.count_eq_zero.mpr hrb
  refine ⟨formatTypeForDisplay_chainRef ws kind x inner h1 h2 hx, ?_, ?_, ?_,
    renderChain_contains ws x, by simp [formatTypeForDisplay], ?_⟩
  · omega
  · omega
  · omega
  · intro k o hk1 hk2
    simp [formatTypeForDisplay, hk1, hk2]

/-- C5 witness: the chain `[LIST, NON_NULL]` around scalar `String` renders
as `[String!]`. -/
theorem C5_witness :
    formatTypeForDisplay (some (chainRef [Wrapper.listW, Wrapper.nonNull]
      (TypeRef.mk "SCALAR" (some "String") none))) = renderChain [Wrapper.listW, Wrapper.nonNull] "String"
    ∧ renderChain [Wrapper.listW, Wrapper.nonNull] "String" = "[String!]" :=
  ⟨(C5_formatTypeForDisplay_chain [Wrapper.listW, Wrapper.nonNull] "SCALAR" "String" none
      (by decide) (by decide) (by decide) (by decide) (by decide) (by decide)).1, by decide⟩

/-- C9 counterexample: on an introspection result whose only entry is an OBJECT
with the empty-string name, `filterObjectTypes` drops the entry (JS truthiness
of `!!type.name`), while the claimed filter ("non-null name") keeps it. -/
theorem C9_counterexample :
    filterObjectTypes emptyNameIntrospection = []
    ∧ filterObjectTypesClaimed emptyNameIntrospection =
        [{ kind := some "OBJECT", name := some "" }]
    ∧ filterObjectTypes emptyNameIntrospection ≠
        filterObjectTypesClaimed emptyNameIntrospection := by decide

/-- C9 (amended): `filterObjectTypes` is total, returns `[]` on a null result or
a result lacking `__schema.types`, and otherwise keeps exactly the non-null
entries with kind OBJECT, a present **non-empty** name not starting with `__`,
preserving the input order. -/
theorem C9_filterObjectTypes_amended (input : Option RawIntrospection) :
    filterObjectTypes input = filterObjectTypesAmended input := by
  rcases input with _ | ⟨_ | ⟨_ | ts⟩⟩
  · rfl
  · rfl
  · rfl
  · show (ts.filterMap _) = (ts.filterMap _)
    apply List.filterMap_congr
    intro x _
    rcases x with _ | ⟨k, _ | n⟩
    · rfl
    · simp [jsTruthy]
    · simp [jsTruthy]

/-- C9 amended witness: evaluated at a mixed concrete introspection result. -/
theorem C9_amended_witness :
    filterObjectTypes (some ⟨some ⟨some [some ⟨some "OBJECT", some "interview"⟩,
        some ⟨some "SCALAR", some "uuid"⟩, none, some ⟨some "OBJECT", some "__Type"⟩,
        some ⟨some "OBJECT", some ""⟩, some ⟨some "OBJECT", some "extraction"⟩]⟩⟩) =
      filterObjectTypesAmended (some ⟨some ⟨some [some ⟨some "OBJECT", some "interview"⟩,
        some ⟨some "SCALAR", some "uuid"⟩, none, some ⟨some "OBJECT", some "__Type"⟩,
        some ⟨some "OBJECT", some ""⟩, some ⟨some "OBJECT", some "extraction"⟩]⟩⟩)
    ∧ filterObjectTypes (some ⟨some ⟨some [some ⟨some "OBJECT", some "interview"⟩,
        some ⟨some "SCALAR", some "uuid"⟩, none, some ⟨some "OBJECT", some "__Type"⟩,
        some ⟨some "OBJECT", some ""⟩, some ⟨some "OBJECT", some "extraction"⟩]⟩⟩) =
      [{ kind := some "OBJECT", name := some "interview" },
       { kind := some "OBJECT", name := some "extraction" }] :=
  ⟨C9_filterObjectTypes_amended _, by decide⟩

/-- C1: every raw query whose trimmed, lowercased form starts with `mutation`
or contains `mutation \x7b` is rejected locally (`mutationRejected`, an error
outcome) with zero downstream HTTP calls, for every downstream behavior. -/
theorem C1_runQuery_rejects_mutations (q : String)
    (downstream : String → Except String String)
    (h : jsStartsWith (jsToLower (jsTrim q)) "mutation" = true
       ∨ jsIncludes (jsToLower (jsTrim q)) "mutation \x7b" = true) :
    runQuery (some q) downstream = (.mutationRejected, 0)
    ∧ (runQuery (some q) downstream).1.isError = true := by
  have hq : q ≠ "" := by
    rintro rfl
    exact absurd h (by decide)
  have hg : mutationGuard q = true := by
    unfold mutationGuard
    rcases h with h | h <;> simp [h]
  constructor
  · simp [runQuery, hq, hg]
  · simp [runQuery, hq, hg, RunQueryResult.isError]

/-- C1 witness: a concrete mutation string is rejected without any call. -/
theorem C1_witness :
    runQuery (some "  Mutation \x7b insert_extraction \x7b id \x7d \x7d")
      (fun s => .ok s) = (.mutationRejected, 0) :=
  (C1_runQuery_rejects_mutations _ _ (Or.inl (by decide))).1

/-- C3: a cache hit within the 30-minute TTL returns the snapshot unchanged
with zero downstream calls; two calls within the TTL window starting from an
empty cache return identical content with exactly one downstream call in total;
a call after the TTL has elapsed fetches again. -/
theorem C3_getSchemaInfo_ttl :
    (∀ (σ : Type) (c : CacheEntry σ) (now : Nat) (fetch : Except String σ),
       now - c.fetchedAt < SCHEMA_CACHE_TTL_MS →
       getSchemaInfo σ now (some c) fetch = (.ok c.data, some c, 0))
    ∧ (∀ (σ : Type) (d : σ) (t1 t2 : Nat) (f2 : Except String σ),
       t2 - t1 < SCHEMA_CACHE_TTL_MS →
       (getSchemaInfo σ t1 none (.ok d)).1 = .ok d
       ∧ (getSchemaInfo σ t2 (getSchemaInfo σ t1 none (.ok d)).2.1 f2).1 = .ok d
       ∧ (getSchemaInfo σ t1 none (.ok d)).2.2 +
           (getSchemaInfo σ t2 (getSchemaInfo σ t1 none (.ok d)).2.1 f2).2.2 = 1)
    ∧ (∀ (σ : Type) (c : CacheEntry σ) (now : Nat) (d : σ),
       SCHEMA_CACHE_TTL_MS ≤ now - c.fetchedAt →
       getSchemaInfo σ now (some c) (.ok d) = (.ok d, some ⟨d, now⟩, 1)) := by
  refine ⟨fun σ c now fetch h => ?_, fun σ d t1 t2 f2 h => ?_, fun σ c now d h => ?_⟩
  · simp [getSchemaInfo, h]
  · refine ⟨rfl, ?_, ?_⟩ <;> simp [getSchemaInfo, h]
  · simp [getSchemaInfo, Nat.not_lt.mpr h]

/-- C3 witness: concrete two-call scenario 5 minutes apart, plus an expiry
refetch 31 minutes later. -/
theorem C3_witness :
    getSchemaInfo Nat 1800000 (some ⟨7, 1500000⟩) (.error "down") = (.ok 7, some ⟨7, 1500000⟩, 0)
    ∧ (getSchemaInfo Nat 300000 (getSchemaInfo Nat 0 none (.ok 7)).2.1 (.error "down")).1 = .ok 7
    ∧ (getSchemaInfo Nat 0 none (.ok 7)).2.2 +
        (getSchemaInfo Nat 300000 (getSchemaInfo Nat 0 none (.ok 7)).2.1 (.error "down")).2.2 = 1
    ∧ getSchemaInfo Nat 1860000 (some ⟨7, 0⟩) (.ok 8) = (.ok 8, some ⟨8, 1860000⟩, 1) :=
  ⟨C3_getSchemaInfo_ttl.1 Nat ⟨7, 1500000⟩ 1800000 (.error "down") (by decide),
   (C3_getSchemaInfo_ttl.2.1 Nat 7 0 300000 (.error "down") (by decide)).2.1,
   (C3_getSchemaInfo_ttl.2.1 Nat 7 0 300000 (.error "down") (by decide)).2.2,
   C3_getSchemaInfo_ttl.2.2 Nat ⟨7, 0⟩ 1860000 8 (by decide)⟩

/-- C8: when the TTL has elapsed (or no snapshot exists) and the refresh fetch
fails, the error propagates unchanged, the cache state (snapshot and timestamp)
is left untouched, and the stale snapshot is not returned by the failing call. -/
theorem C8_getSchemaInfo_failed_refresh :
    (∀ (σ : Type) (c : CacheEntry σ) (now : Nat) (e : String),
       SCHEMA_CACHE_TTL_MS ≤ now - c.fetchedAt →
       getSchemaInfo σ now (some c) (.error e) = (.error e, some c, 1))
    ∧ (∀ (σ : Type) (now : Nat) (e : String),
       getSchemaInfo σ now none (.error e) = (.error e, none, 1)) := by
  refine ⟨fun σ c now e h => ?_, fun σ now e => rfl⟩
  simp [getSchemaInfo, Nat.not_lt.mpr h]

/-- C8 witness: a failed refresh 31 minutes after the snapshot leaves cache
and timestamp intact and surfaces the error. -/
theorem C8_witness :
    getSchemaInfo Nat 1860000 (some ⟨7, 0⟩) (.error "fetch failed") =
      (.error "fetch failed", some ⟨7, 0⟩, 1) :=
  C8_getSchemaInfo_failed_refresh.1 Nat ⟨7, 0⟩ 1860000 "fetch failed" (by decide)

/-- C7: numeric limits are clamped to [1, cap]: 10000 becomes 50 for both
`search-extractions` and `top-customer-issues` (documented max 50); zero,
negative or non-numeric (NaN) limits and an absent limit all fall back to the
documented default 10, never zero; the synthesized query then contains
`limit: 50` for the 10000 case. -/
theorem C7_limit_clamped :
    searchExtractionsLimit (some (some 10000)) = 50
    ∧ topCustomerIssuesLimit (some (some 10000)) = 50
    ∧ (∀ n : Int, n ≤ 0 → searchExtractionsLimit (some (some n)) = 10
        ∧ topCustomerIssuesLimit (some (some n)) = 10)
    ∧ searchExtractionsLimit (some none) = 10
    ∧ searchExtractionsLimit none = 10
    ∧ (∀ arg : LimitArg, 1 ≤ searchExtractionsLimit arg ∧ searchExtractionsLimit arg ≤ 50)
    ∧ jsIncludes (searchExtractionsQuery " summary: \x7b_ilike: \"%pricing%\"\x7d "
        (searchExtractionsLimit (some (some 10000))) ["id", "summary", "display_ts"])
        "limit: 50" = true := by
  refine ⟨by decide, by decide, fun n h => ?_, by decide, by decide, fun arg => ?_, by decide⟩
  · constructor <;>
      simp [searchExtractionsLimit, topCustomerIssuesLimit, clampLimit, h]
  · rcases arg with _ | (_ | n)
    · exact ⟨by decide, by decide⟩
    · exact ⟨by decide, by decide⟩
    · simp only [searchExtractionsLimit, clampLimit]
      split_ifs <;> constructor <;> omega

/-- C7 witness: the theorem evaluated at limits 10000, -5 and NaN. -/
theorem C7_witness :
    searchExtractionsLimit (some (some (-5))) = 10
    ∧ 1 ≤ searchExtractionsLimit (some (some (-5))) :=
  ⟨(C7_limit_clamped.2.2.1 (-5) (by decide)).1,
   (C7_limit_clamped.2.2.2.2.2.1 (some (some (-5)))).1⟩

/-- C10: in `build-query`, an absent, non-integer (NaN), zero or negative
limit omits the `limit:` parameter entirely (no default substituted), while a
positive integer limit is emitted capped at 100. -/
theorem C10_buildQuery_limit :
    buildQueryLimitParam none = none
    ∧ buildQueryLimitParam (some none) = none
    ∧ (∀ n : Int, n ≤ 0 → buildQueryLimitParam (some (some n)) = none)
    ∧ (∀ n : Int, 0 < n →
        buildQueryLimitParam (some (some n)) = some ("limit: " ++ toString (min n 100)))
    ∧ buildQueryLimitParam (some (some 10000)) = some "limit: 100"
    ∧ (∀ (filterStr : Option String) (n : Int), n ≤ 0 →
        buildQueryParams (some (some n)) filterStr = buildQueryParams none filterStr
        ∧ buildQueryParams (some none) filterStr = buildQueryParams none filterStr)
    ∧ buildQueryParams (some (some 0)) none = "" := by
  have hneg : ∀ n : Int, n ≤ 0 → buildQueryLimitParam (some (some n)) = none := by
    intro n h
    simp only [buildQueryLimitParam]
    rw [if_neg (by omega)]
  refine ⟨rfl, rfl, hneg, fun n h => ?_, by decide, fun filterStr n h => ?_, by decide⟩
  · simp only [buildQueryLimitParam]
    rw [if_pos h]
  · have h0 : buildQueryLimitParam none = none := rfl
    have h2 : buildQueryLimitParam (some none) = none := rfl
    constructor <;> simp [buildQueryParams, hneg n h, h0, h2]

/-- C10 witness: the theorem evaluated at limits -3 and 7. -/
theorem C10_witness :
    buildQueryLimitParam (some (some (-3))) = none
    ∧ buildQueryLimitParam (some (some 7)) = some "limit: 7" :=
  ⟨C10_buildQuery_limit.2.2.1 (-3) (by decide),
   (C10_buildQuery_limit.2.2.2.1 7 (by decide)).trans (by decide)⟩

/-- C4: `findSimilarFields` returns `[]` when the type lookup fails; otherwise
its results are field names of the type whose case-insensitive Levenshtein
distance `d` to the misspelled name satisfies `0 < d ≤ 3`, sorted ascending by
distance with stable tie order (insertion sort keeps original order), truncated
to 3; against a type with field `summary`, suggesting for `summry` yields
`summary` as the top suggestion at distance 1. -/
theorem C4_findSimilarFields_spec :
    (∀ (fieldName : String) (maxD : Nat), findSimilarFields (.error ()) fieldName maxD = [])
    ∧ (∀ (names : List String) (fieldName x : String),
        x ∈ findSimilarFields (.ok names) fieldName →
        x ∈ names ∧ 0 < lowerDistanceTo fieldName x ∧ lowerDistanceTo fieldName x ≤ 3)
    ∧ (∀ (names : List String) (fieldName : String),
        (findSimilarFields (.ok names) fieldName).length ≤ 3)
    ∧ (∀ (names : List String) (fieldName : String),
        (findSimilarFields (.ok names) fieldName).Pairwise
          fun a b => lowerDistanceTo fieldName a ≤ lowerDistanceTo fieldName b)
    ∧ (∀ (names : List String) (fieldName : String),
        findSimilarFields (.ok names) fieldName =
          ((names.filter fun name =>
            decide (0 < lowerDistanceTo fieldName name) &&
              decide (lowerDistanceTo fieldName name ≤ 3)).insertionSort
            fun a b => lowerDistanceTo fieldName a ≤ lowerDistanceTo fieldName b).take 3)
    ∧ (∀ (names : List String) (fieldName x y : String),
        [x, y].Sublist (names.filter fun name =>
          decide (0 < lowerDistanceTo fieldName name) &&
            decide (lowerDistanceTo fieldName name ≤ 3)) →
        lowerDistanceTo fieldName x ≤ lowerDistanceTo fieldName y →
        [x, y].Sublist ((names.filter fun name =>
          decide (0 < lowerDistanceTo fieldName name) &&
            decide (lowerDistanceTo fieldName name ≤ 3)).insertionSort
          fun a b => lowerDistanceTo fieldName a ≤ lowerDistanceTo fieldName b))
    ∧ findSimilarFields (.ok ["id", "summary", "display_ts"]) "summry" = ["summary"]
    ∧ lowerDistanceTo "summry" "summary" = 1 := by
  refine ⟨fun _ _ => rfl, ?_, ?_, ?_, fun _ _ => rfl, ?_, by decide, by decide⟩
  · intro names fieldName x hx
    have e : findSimilarFields (.ok names) fieldName =
        ((names.filter fun name =>
          decide (0 < lowerDistanceTo fieldName name) &&
            decide (lowerDistanceTo fieldName name ≤ 3)).insertionSort
          fun a b => lowerDistanceTo fieldName a ≤ lowerDistanceTo fieldName b).take 3 := rfl
    rw [e] at hx
    have h1 := List.mem_of_mem_take hx
    have h2 := (List.perm_insertionSort
      (fun a b => lowerDistanceTo fieldName a ≤ lowerDistanceTo fieldName b) _).mem_iff.mp h1
    obtain ⟨hmem, hp⟩ := List.mem_filter.mp h2
    simp only [Bool.and_eq_true, decide_eq_true_eq] at hp
    exact ⟨hmem, hp.1, hp.2⟩
  · intro names fieldName
    have e : findSimilarFields (.ok names) fieldName =
        ((names.filter fun name =>
          decide (0 < lowerDistanceTo fieldName name) &&
            decide (lowerDistanceTo fieldName name ≤ 3)).insertionSort
          fun a b => lowerDistanceTo fieldName a ≤ lowerDistanceTo fieldName b).take 3 := rfl
    rw [e]
    exact (List.length_take 3 _).trans_le (min_le_left _ _)
  · intro names fieldName
    have e : findSimilarFields (.ok names) fieldName =
        ((names.filter fun name =>
          decide (0 < lowerDistanceTo fieldName name) &&
            decide (lowerDistanceTo fieldName name ≤ 3)).insertionSort
          fun a b => lowerDistanceTo fieldName a ≤ lowerDistanceTo fieldName b).take 3 := rfl
    rw [e]
    letI : IsTotal String (fun a b => lowerDistanceTo fieldName a ≤ lowerDistanceTo fieldName b) :=
      ⟨fun a b => le_total _ _⟩
    letI : IsTrans String (fun a b => lowerDistanceTo fieldName a ≤ lowerDistanceTo fieldName b) :=
      ⟨fun _ _ _ => le_trans⟩
    exact List.Pairwise.sublist (List.take_sublist 3 _) (List.sorted_insertionSort _ _)
  · intro names fieldName x y hsub hle
    exact List.pair_sublist_insertionSort hle hsub

/-- C4 witness: the theorem's membership and stability parts evaluated at
concrete field lists around the misspelling `summry`. -/
theorem C4_witness :
    ("summary" ∈ ["id", "summary", "display_ts"]
      ∧ 0 < lowerDistanceTo "summry" "summary" ∧ lowerDistanceTo "summry" "summary" ≤ 3)
    ∧ ["bummary", "gummary"].Sublist ((["bummary", "gummary"].filter fun name =>
        decide (0 < lowerDistanceTo "summry" name) &&
          decide (lowerDistanceTo "summry" name ≤ 3)).insertionSort
        fun a b => lowerDistanceTo "summry" a ≤ lowerDistanceTo "summry" b) :=
  ⟨C4_findSimilarFields_spec.2.1 ["id", "summary", "display_ts"] "summry" "summary" (by decide),
   C4_findSimilarFields_spec.2.2.2.2.2.1 ["bummary", "gummary"] "summry" "bummary" "gummary"
     (by decide) (by decide)⟩

/-- C6: when at least two of the candidate text fields
`summary, exact_quote, text, context` exist on the live type, the synthesized
where-clause is an `_or` over one `_ilike` condition per existing candidate, in
priority order; with exactly one candidate a plain single-field condition is
emitted; concretely, phrase `pricing` against a type with `summary` and `text`
yields `_or: [\x7b summary: \x7b_ilike: "%pricing%"\x7d \x7d, \x7b text: \x7b_ilike: "%pricing%"\x7d \x7d]`. -/
theorem C6_multi_field_or :
    (∀ (phrase : String) (fields : List FieldInfo) (smart : List String),
       smart = smartFieldCandidates.filter (fun c => fields.any fun ef => ef.name = c) →
       (2 ≤ smart.length →
         searchExtractionsWhereClauses phrase none none fields =
           .ok ["_or: [" ++ String.intercalate ", " (smart.map (ilikeCondition phrase)) ++ "]"])
       ∧ (∀ f0 : String, smart = [f0] →
         searchExtractionsWhereClauses phrase none none fields =
           .ok [stripOuterBraces (ilikeCondition phrase f0)]))
    ∧ searchExtractionsWhere "pricing" none none
        [⟨"summary", .mk "SCALAR" (some "String") none⟩,
         ⟨"text", .mk "SCALAR" (some "String") none⟩,
         ⟨"id", .mk "SCALAR" (some "uuid") none⟩] =
        .ok "_or: [\x7b summary: \x7b_ilike: \"%pricing%\"\x7d \x7d, \x7b text: \x7b_ilike: \"%pricing%\"\x7d \x7d]"
    ∧ searchExtractionsWhere "pricing" none none [⟨"summary", .mk "SCALAR" (some "String") none⟩] =
        .ok " summary: \x7b_ilike: \"%pricing%\"\x7d " := by
  refine ⟨?_, rfl, rfl⟩
  intro phrase fields smart hsm
  constructor
  · intro h2
    simp only [searchExtractionsWhereClauses, ← hsm]
    rw [if_pos (by omega), if_pos (by omega)]
    simp [extTypeClause, personaClause]
  · intro f0 hf0
    simp only [searchExtractionsWhereClauses, ← hsm, hf0]
    norm_num
    exact ⟨rfl, rfl, rfl⟩

/-- C6 witness: the general part applied to the concrete two-candidate and
one-candidate field lists. -/
theorem C6_witness :
    searchExtractionsWhereClauses "pricing" none none
      [⟨"summary", .mk "SCALAR" (some "String") none⟩,
       ⟨"text", .mk "SCALAR" (some "String") none⟩] =
      .ok ["_or: [" ++ String.intercalate ", "
        ((smartFieldCandidates.filter fun c =>
          [(⟨"summary", .mk "SCALAR" (some "String") none⟩ : FieldInfo),
           ⟨"text", .mk "SCALAR" (some "String") none⟩].any fun ef => ef.name = c).map
          (ilikeCondition "pricing")) ++ "]"]
    ∧ searchExtractionsWhereClauses "pricing" none none
        [⟨"context", .mk "SCALAR" (some "String") none⟩] =
      .ok [stripOuterBraces (ilikeCondition "pricing" "context")] :=
  ⟨(C6_multi_field_or.1 "pricing" _ _ rfl).1 (by decide),
   (C6_multi_field_or.1 "pricing" [⟨"context", .mk "SCALAR" (some "String") none⟩] _ rfl).2
     "context" (by decide)⟩

/-- C2 counterexample: the synthesized filter text is identical whether every
declared field type is the scalar `String` or an ENUM — the type filter value
`Issue` is emitted bare in both (`name: \x7b_eq: Issue\x7d`), so the bare-vs-quoted
decision cannot be "looked up via the field's declared TypeRef kind"; moreover
the runtime value's shape IS inspected: surrounding quotes are stripped. -/
theorem C2_counterexample :
    searchExtractionsWhere "pricing" (some "Issue") none fieldsDeclaredString =
      .ok ("_or: [\x7b summary: \x7b_ilike: \"%pricing%\"\x7d \x7d, \x7b text: \x7b_ilike: \"%pricing%\"\x7d \x7d]" ++
        ", types: \x7b type: \x7b name: \x7b_eq: Issue\x7d \x7d \x7d")
    ∧ searchExtractionsWhere "pricing" (some "Issue") none fieldsDeclaredEnum =
      .ok ("_or: [\x7b summary: \x7b_ilike: \"%pricing%\"\x7d \x7d, \x7b text: \x7b_ilike: \"%pricing%\"\x7d \x7d]" ++
        ", types: \x7b type: \x7b name: \x7b_eq: Issue\x7d \x7d \x7d")
    ∧ normalizeEnumValue "\"Issue\"" = normalizeEnumValue "Issue" :=
  ⟨rfl, rfl, rfl⟩

/-- C2 (amended): the synthesized where-clause depends only on the *names* of
the live fields, never on their declared TypeRef kinds; the `type` filter value
is emitted as a bare identifier after `normalizeEnumValue` strips surrounding
quotes from the runtime value (a value-shape inspection), and every text-search
condition quotes the phrase and wraps it in `%` wildcards for `_ilike`. -/
theorem C2_enum_emission_amended :
    (∀ (phrase : String) (extType : Option String) (personaIds : Option (List Int))
       (fields fields' : List FieldInfo),
       fields.map FieldInfo.name = fields'.map FieldInfo.name →
       searchExtractionsWhereClauses phrase extType personaIds fields =
         searchExtractionsWhereClauses phrase extType personaIds fields')
    ∧ (∀ t : String, t ≠ "" → normalizeEnumValue t ≠ "" →
        extTypeClause (some t) =
          some ("types: \x7b type: \x7b name: \x7b_eq: " ++ normalizeEnumValue t ++ "\x7d \x7d \x7d"))
    ∧ normalizeEnumValue "\"Issue\"" = "Issue"
    ∧ normalizeEnumValue "'Issue'" = "Issue"
    ∧ (∀ phrase field : String, ilikeCondition phrase field =
        "\x7b " ++ field ++ ": \x7b_ilike: \"%" ++ phrase ++ "%\"\x7d \x7d") := by
  refine ⟨?_, ?_, by decide, by decide, fun _ _ => rfl⟩
  · intro phrase extType personaIds fields fields' h
    have hany : ∀ c : String, (fields.any fun ef => ef.name = c) =
        (fields'.any fun ef => ef.name = c) := fun c =>
      any_name_congr fields fields' h (fun n => decide (n = c))
    have hfind : (fields.find? fun f => f.name = "summary" ∨ f.name = "text").map
          FieldInfo.name =
        (fields'.find? fun f => f.name = "summary" ∨ f.name = "text").map FieldInfo.name :=
      find?_name_congr fields (fun n => decide (n = "summary" ∨ n = "text")) fields' h
    simp only [searchExtractionsWhereClauses, personaClause, hany, hfind]
  · intro t ht hn
    simp [extTypeClause, ht, hn]

/-- C2 amended witness: the kind-independence and bare-emission parts applied
at the concrete String-declared vs ENUM-declared schemas and value `'Issue'`. -/
theorem C2_amended_witness :
    searchExtractionsWhereClauses "pricing" (some "Issue") (some [246]) fieldsDeclaredString =
      searchExtractionsWhereClauses "pricing" (some "Issue") (some [246]) fieldsDeclaredEnum
    ∧ extTypeClause (some "'Issue'") =
        some ("types: \x7b type: \x7b name: \x7b_eq: " ++ normalizeEnumValue "'Issue'" ++ "\x7d \x7d \x7d") :=
  ⟨C2_enum_emission_amended.1 "pricing" (some "Issue") (some [246])
      fieldsDeclaredString fieldsDeclaredEnum (by decide),
   C2_enum_emission_amended.2.1 "'Issue'" (by decide) (by decide)⟩

end BB
